import Mathlib

/-!
Verification development for the client-side network layer of CutThePower.

Shallow embedding of `src/Network/ClientUpdateSystem.cpp` and
`src/Network/ServerCommunication.cpp`. Machine integers are modelled as `Nat`
(with explicit `% 2^32` where 32-bit wrap-around matters); C arrays indexed by
entity/slot numbers are modelled as functions `Nat → α`; the two global lookup
tables are modelled at value level for the packet-dispatch logic and at byte
level for the `memset`-based shutdown/initialisation paths, whose behaviour
depends on byte counts.

The protocol header `Packets.h` and the world header `world.h` are not part of
the sources; every constant taken from them is marked below.  Packet-type
numbering is recovered from the sources themselves: `get_protocol` enumerates
the types in order (9 TCP types followed by 4 UDP types) and
`client_update_system` dispatches `case 7: // undefined`, which pins `P_UNDEF`
to 7 and hence the 1..13 numbering used here.  No theorem below depends on the
exact numeric values, only on their distinctness and on the range `[1, NUM_PACKETS]`.
-/

namespace CutThePower

/-- Modelled from the spec: packet-type constants from the missing `Packets.h`.
Numbering recovered from `get_protocol`'s enumeration order and the literal
`case 7: // undefined` in `client_update_system`. -/
def P_NAME : Nat := 1

def P_CONNECT : Nat := 2

def G_STATUS : Nat := 3

def P_CHAT : Nat := 4

def P_CLNT_LOBBY : Nat := 5

def P_OBJCTV_LOC : Nat := 6

def P_UNDEF : Nat := 7

def P_KEEPALIVE : Nat := 8

def P_OBJSTATUS : Nat := 9

def P_POSUPDATE : Nat := 10

/-- `G_ALLPOSUPDATE` is the name `client_update_system` uses for the position
update type sent on UDP (`P_POSUPDATE` in `get_protocol`). -/
def G_ALLPOSUPDATE : Nat := 10

def P_FLOOR_MOVE_REQ : Nat := 11

def P_FLOOR_MOVE : Nat := 12

def P_TAGGING : Nat := 13

/-- Number of packet types: `get_protocol` lists 9 TCP and 4 UDP types. -/
def NUM_PACKETS : Nat := 13

/-- Modelled from the spec: the distinguished shutdown marker read in place of
a packet count (`Packets.h` is missing; the exact value is irrelevant to every
claim, only that it is distinguished). -/
def NET_SHUTDOWN : Nat := 4294967295

/-- The unassigned sentinel of the player table.  `init_client_update` fills
the table of `unsigned int` entries with `memset(..., 255, ...)`, so the
sentinel the code compares against is the all-ones 32-bit word. -/
def UNASSIGNED : Nat := 4294967295

/-- Modelled from the spec: connection result codes from the missing
`Packets.h`; only their distinctness matters. -/
def CONNECT_CODE_ACCEPTED : Nat := 0

def CONNECT_CODE_DENIED : Nat := 1

/-- Modelled from the spec: terminal game-status values from the missing
`Packets.h`; only their distinctness from the running status matters. -/
def GAME_TEAM1_WIN : Nat := 1

def GAME_TEAM2_WIN : Nat := 2

/-- Modelled from the spec: team identifiers; the sources compare against
`COPS`, `ROBBERS` and the literal `0`, so the two named teams are nonzero. -/
def COPS : Nat := 1

def ROBBERS : Nat := 2

/-- Modelled from the spec: collision classes from the missing headers. -/
def COLLISION_HACKER : Nat := 1

def COLLISION_GUARD : Nat := 2

/-- Modelled from the spec: component bit flags from the missing `world.h`;
distinct single bits, exact positions irrelevant to the claims. -/
def COMPONENT_POSITION : Nat := 1

def COMPONENT_COLLISION : Nat := 2

def COMPONENT_MOVEMENT : Nat := 4

def COMPONENT_PLAYER : Nat := 8

def COMPONENT_CONTROLLABLE : Nat := 16

def COMPONENT_RENDER_PLAYER : Nat := 32

def COMPONENT_OBJECTIVE : Nat := 64

/-- Modelled from the spec: facing directions from the missing headers. -/
def DIRECTION_LEFT : Nat := 0

def DIRECTION_RIGHT : Nat := 1

def DIRECTION_DOWN : Nat := 2

def DIRECTION_UP : Nat := 3

/-- Error codes of `ServerCommunication`; values recovered from
`get_error_string`, which maps `err` to `error_strings[-err - 1]` over the
string table in the source (so "connection closed" is `-2`, "TCP receive
failed" is `-3`, "corrupted" is `-7`).  `cnt_errno` is initialised to `-1`. -/
def ERR_CONN_FAIL : Int := -1

def ERR_CONN_CLOSED : Int := -2

def ERR_TCP_RECV_FAIL : Int := -3

def ERR_UDP_RECV_FAIL : Int := -4

def ERR_CORRUPTED : Int := -7

def ERR_NO_MEM : Int := -9

/-- Table sizes from the missing `Packets.h`/`world.h`; every definition below
is parametric in them and every theorem holds for (or is witnessed at)
arbitrary instantiations. -/
structure Consts where
  MAX_PLAYERS : Nat
  MAX_OBJECTIVES : Nat
  OBJECTIVES_PER_FLOOR : Nat
  MAX_ENTITIES : Nat

/-- Pointwise update of a table modelled as a function. -/
def updF {α : Type} (f : Nat → α) (i : Nat) (v : α) : Nat → α :=
  fun j => if j = i then v else f j

/-- `IN_THIS_COMPONENT(mask, c)`: the component bits `c` are all present. -/
def IN_THIS_COMPONENT (m c : Nat) : Bool := m &&& c == c

/-- `mask &= ~bits` on a 32-bit component mask. -/
def maskClear (m bits : Nat) : Nat := m &&& (4294967295 ^^^ bits)

/-- `world->position[e]` record. -/
structure Position where
  x : Int
  y : Int
  level : Int
deriving DecidableEq

/-- `world->movement[e]` record (the fields the network layer touches). -/
structure Movement where
  movX : Int
  movY : Int
  lastDirection : Nat
deriving DecidableEq

/-- `world->player[e]` record (the fields the network layer touches). -/
structure PlayerRec where
  playerNo : Nat
  teamNo : Nat
  readyStatus : Nat
deriving DecidableEq

/-- `world->collision[e]` record (only the `type` field is touched here). -/
structure CollisionRec where
  ctype : Nat
deriving DecidableEq

/-- `world->objective[e]` record (only the `status` field is touched here). -/
structure ObjectiveRec where
  status : Nat
deriving DecidableEq

/-- What `load_animation` finds when it opens and parses the animation file
at a given path (Graphics/animation_system.cpp:114-173): `noFile` — `fopen`
returns 0 and the function returns `-1` without touching the entity;
`parseFail` — the file opened but some `fscanf` failed midway, so the
function returns `-1` after having (partially) rewritten the component with
whatever was read; `ok` — the whole file parsed and the component holds its
data.  The parsed animation data (animation count, per-animation frames,
surfaces, optional features) is abstracted to the opaque `content` string,
since nothing in the network layer reads it back. -/
inductive AnimLoad where
  | noFile
  | parseFail (content : String)
  | ok (content : String)

/-- The world-state collaborator (§3/§6 of the spec): per-entity component
arrays plus the entity allocator.  `nextEntity` and `alive` model the spec's
entity creation/destruction boundary (`world.h` is not in the sources).
`animation` records the (abstracted) contents of the animation component
written by `load_animation`; `assets` is the read-only asset filesystem the
loader reads from, carried in the state so the loader needs no extra
parameter. -/
structure World where
  mask : Nat → Nat
  position : Nat → Position
  movement : Nat → Movement
  player : Nat → PlayerRec
  collision : Nat → CollisionRec
  objective : Nat → ObjectiveRec
  animation : Nat → String
  nextEntity : Nat
  alive : Nat → Bool
  assets : String → AnimLoad

/-- One entry of the `objective_table` cache (`struct _objective_cache`). -/
structure ObjCache where
  obj_state : Nat
  entity_no : Nat
deriving DecidableEq

/-- The state touched by `client_update_system` and its helpers: the world,
the two global lookup tables, the globals `controllable_playerNo`,
`player_team` and `floor_change_flag`, and the chat-log collaborator. -/
structure CState where
  world : World
  player_table : Nat → Nat
  objective_table : Nat → ObjCache
  controllable_playerNo : Nat
  player_team : Nat
  floor_change_flag : Nat
  chat_log : List String

/-- `PKT_PLAYER_CONNECT` (fields as used by `client_update_info`). -/
structure PKT_PLAYER_CONNECT where
  connect_code : Nat
  clients_team_number : Nat
  clients_player_number : Nat

/-- `PKT_GAME_STATUS` (fields as used by `client_update_status`). -/
structure PKT_GAME_STATUS where
  player_valid : Nat → Bool
  otherPlayers_teams : Nat → Nat
  readystatus : Nat → Nat
  characters : Nat → Nat

/-- `PKT_ALL_POS_UPDATE` (fields as used by `client_update_pos`). -/
structure PKT_ALL_POS_UPDATE where
  floor : Int
  players_on_floor : Nat → Bool
  xPos : Nat → Int
  yPos : Nat → Int
  xVel : Nat → Int
  yVel : Nat → Int

/-- `PKT_OBJECTIVE_STATUS` (fields as used by `client_update_objectives`). -/
structure PKT_OBJECTIVE_STATUS where
  game_status : Nat
  objectives_captured : Nat → Nat

/-- `PKT_FLOOR_MOVE` (fields as used by `client_update_floor`). -/
structure PKT_FLOOR_MOVE where
  new_floor : Nat
  xPos : Int
  yPos : Int

/-- A decoded packet payload as delivered by `read_data`: one constructor per
packet struct the dispatcher casts to. -/
inductive Payload where
  | connect (p : PKT_PLAYER_CONNECT)
  | gameStatus (p : PKT_GAME_STATUS)
  | chat (msg : String)
  | objStatus (p : PKT_OBJECTIVE_STATUS)
  | allPos (p : PKT_ALL_POS_UPDATE)
  | floorMove (p : PKT_FLOOR_MOVE)
  | raw

/-- The type/payload agreement `read_data` guarantees for well-formed traffic:
the payload bytes of a packet of type `t` are the struct the dispatcher casts
them to (the dispatcher routes both `P_OBJCTV_LOC` and `P_OBJSTATUS` to
`client_update_objectives`, which reads them as `PKT_OBJECTIVE_STATUS`). -/
def wfPacket : Nat → Payload → Prop
  | t, Payload.connect _ => t = P_CONNECT
  | t, Payload.gameStatus _ => t = G_STATUS
  | t, Payload.chat _ => t = P_CHAT
  | t, Payload.objStatus _ => t = P_OBJCTV_LOC ∨ t = P_OBJSTATUS
  | t, Payload.allPos _ => t = G_ALLPOSUPDATE
  | t, Payload.floorMove _ => t = P_FLOOR_MOVE
  | t, Payload.raw => t = P_UNDEF ∨ t = P_NAME ∨ t = P_CLNT_LOBBY ∨
      t = P_KEEPALIVE ∨ t = P_FLOOR_MOVE_REQ ∨ t = P_TAGGING ∨ NUM_PACKETS < t

/-- `client_update_chat` (ClientUpdateSystem.cpp:140-144): forwards the
message to the chat-log collaborator. -/
def client_update_chat (st : CState) (msg : String) : CState :=
  { st with chat_log := st.chat_log ++ [msg] }

/-- Modelled from the spec: `create_player` (a world-state collaborator not in
the sources; §6 "exposes entity creation") allocates one fresh client entity
at the given coordinates with the given collision class and returns it. -/
def create_player (w : World) (x y : Int) (ctype : Nat) (playerNo : Nat) : World × Nat :=
  let e := w.nextEntity
  ({ w with
      nextEntity := e + 1
      alive := updF w.alive e true
      position := updF w.position e { x := x, y := y, level := (w.position e).level }
      collision := updF w.collision e { ctype := ctype }
      player := updF w.player e { playerNo := playerNo, teamNo := 0, readyStatus := 0 } }, e)

/-- Modelled from the spec: `destroy_entity` (world-state collaborator, §6
"entity destruction") releases the entity and empties its component mask. -/
def destroy_entity (w : World) (e : Nat) : World :=
  { w with alive := updF w.alive e false, mask := updF w.mask e 0 }

/-- `load_animation` (Graphics/animation_system.cpp:98-210): opens the
animation file at `path` and parses it into the entity's animation component.
If `fopen` fails it prints an error and returns `-1` WITHOUT touching the
component (lines 114-117); if a later `fscanf` fails it returns `-1` with the
component partially rewritten by what was read so far (lines 119-173); on
success the parsed animation set is installed and 0 is returned.  The file
contents and parse outcome come from the world's `assets` map; callers in
the network layer ignore the return code. -/
def load_animation (path : String) (w : World) (e : Nat) : World × Int :=
  match w.assets path with
  | AnimLoad.noFile => (w, -1)
  | AnimLoad.parseFail content => ({ w with animation := updF w.animation e content }, -1)
  | AnimLoad.ok content => ({ w with animation := updF w.animation e content }, 0)

def cop_animation_path : String := "assets/Graphics/player/p1/cop_animation.txt"

def default_animation_path : String := "assets/Graphics/player/p0/rob_animation.txt"

/-- Modelled from the spec: character identifiers from the missing headers
(only their distinctness matters to `setup_character_animation`). -/
def ABHISHEK : Nat := 0

def AMAN : Nat := 1

def ANDREW : Nat := 2

def CHRIS : Nat := 3

def CORY : Nat := 4

def DAMIEN : Nat := 5

def CLARK : Nat := 6

def GERMAN : Nat := 7

def IAN : Nat := 8

def JORDAN : Nat := 9

def JOSH : Nat := 10

def KONST : Nat := 11

def MAT : Nat := 12

def RAMZI : Nat := 13

def ROBIN : Nat := 14

def SAM : Nat := 15

def SHANE : Nat := 16

def TIM : Nat := 17

def VINCENT : Nat := 18

/-- The per-character animation file selected by the switch in
`setup_character_animation` (ClientUpdateSystem.cpp:350-413). -/
def character_animation_file (character : Nat) : String :=
  if character = ABHISHEK then "assets/Graphics/player/abhishek/animation.txt"
  else if character = AMAN then "assets/Graphics/player/aman/animation.txt"
  else if character = ANDREW then "assets/Graphics/player/andrew/animation.txt"
  else if character = CHRIS then "assets/Graphics/player/chris/animation.txt"
  else if character = CORY then "assets/Graphics/player/cory/animation.txt"
  else if character = DAMIEN then "assets/Graphics/player/damien/animation.txt"
  else if character = CLARK then "assets/Graphics/player/clark/animation.txt"
  else if character = GERMAN then "assets/Graphics/player/german/animation.txt"
  else if character = IAN then "assets/Graphics/player/ian/animation.txt"
  else if character = JORDAN then "assets/Graphics/player/jordan/animation.txt"
  else if character = JOSH then "assets/Graphics/player/josh/animation.txt"
  else if character = KONST then "assets/Graphics/player/konst/animation.txt"
  else if character = MAT then "assets/Graphics/player/mat/animation.txt"
  else if character = RAMZI then "assets/Graphics/player/ramzi/animation.txt"
  else if character = ROBIN then "assets/Graphics/player/robin/animation.txt"
  else if character = SAM then "assets/Graphics/player/sam/animation.txt"
  else if character = SHANE then "assets/Graphics/player/shane/animation.txt"
  else if character = TIM then "assets/Graphics/player/tim/animation.txt"
  else if character = VINCENT then "assets/Graphics/player/vincent/animation.txt"
  else default_animation_path

/-- `setup_character_animation` (ClientUpdateSystem.cpp:350-413): selects the
character's animation file and calls `load_animation`, ignoring its result. -/
def setup_character_animation (w : World) (character : Nat) (e : Nat) : World :=
  (load_animation (character_animation_file character) w e).1

/-- `change_player` (ClientUpdateSystem.cpp:329-348): rewrites the player
record of the entity mapped to `playerNo`, resets its collision class by team,
and re-installs its animation set. -/
def change_player (player_table : Nat → Nat) (w : World) (ty : Nat)
    (pkt : PKT_GAME_STATUS) (playerNo : Nat) : World :=
  let e := player_table playerNo
  let prec : PlayerRec :=
    { playerNo := playerNo
      teamNo := pkt.otherPlayers_teams playerNo
      readyStatus := pkt.readystatus playerNo }
  let crec : CollisionRec :=
    { ctype := if ty = COPS then COLLISION_GUARD else COLLISION_HACKER }
  let w1 := { w with player := updF w.player e prec }
  let w2 := { w1 with collision := updF w1.collision e crec }
  if ty = COPS then (load_animation cop_animation_path w2 e).1
  else setup_character_animation w2 (pkt.characters playerNo) e

/-- The valid-and-already-assigned branch of `client_update_status`'s slot
loop (ClientUpdateSystem.cpp:300-316): three sequential team tests, each
calling `change_player` (team 0 is treated as `ROBBERS`). -/
def status_assigned_world (pkt : PKT_GAME_STATUS) (tbl : Nat → Nat) (w : World) (i : Nat) : World :=
  let w1 := if pkt.otherPlayers_teams i = COPS then change_player tbl w COPS pkt i else w
  let w2 := if pkt.otherPlayers_teams i = ROBBERS then change_player tbl w1 ROBBERS pkt i else w1
  if pkt.otherPlayers_teams i = 0 then change_player tbl w2 ROBBERS pkt i else w2

/-- The body of the per-slot loop of `client_update_status`
(ClientUpdateSystem.cpp:284-326). -/
def client_update_status_slot (pkt : PKT_GAME_STATUS) (st : CState) (i : Nat) : CState :=
  if pkt.player_valid i then
    if st.player_table i = UNASSIGNED then
      let we := create_player st.world 400 600 COLLISION_HACKER i
      let w2 := if pkt.otherPlayers_teams i = COPS
        then (load_animation cop_animation_path we.1 we.2).1
        else setup_character_animation we.1 (pkt.characters i) we.2
      { st with world := w2, player_table := updF st.player_table i we.2 }
    else
      { st with world := status_assigned_world pkt st.player_table st.world i }
  else
    if st.player_table i ≠ UNASSIGNED then
      { st with
          world := destroy_entity st.world (st.player_table i)
          player_table := updF st.player_table i UNASSIGNED }
    else st

/-- `client_update_status` (ClientUpdateSystem.cpp:280-327): iterates the
per-slot body over slots `0 .. MAX_PLAYERS - 1`. -/
def client_update_status (C : Consts) (st : CState) (pkt : PKT_GAME_STATUS) : CState :=
  (List.range C.MAX_PLAYERS).foldl (client_update_status_slot pkt) st

/-- The body of the per-slot loop of `client_update_pos`
(ClientUpdateSystem.cpp:201-233).  The slot equal to `controllable_playerNo`
is skipped; an assigned slot not flagged on this floor only has its render and
collision bits cleared; an assigned on-floor slot gets those bits set and its
movement, facing and position overwritten (horizontal facing first, vertical
facing second, last write wins). -/
def client_update_pos_slot (player_table : Nat → Nat) (ctrl : Nat)
    (pkt : PKT_ALL_POS_UPDATE) (w : World) (i : Nat) : World :=
  if i = ctrl then w
  else if player_table i ≠ UNASSIGNED then
    let e := player_table i
    if ¬ pkt.players_on_floor i then
      let cleared := maskClear (w.mask e) (COMPONENT_RENDER_PLAYER ||| COMPONENT_COLLISION)
      { w with mask := updF w.mask e cleared }
    else
      let shown := w.mask e ||| (COMPONENT_RENDER_PLAYER ||| COMPONENT_COLLISION)
      let w1 := { w with mask := updF w.mask e shown }
      let dir0 := (w1.movement e).lastDirection
      let dir1 := if pkt.xVel i < 0 then DIRECTION_LEFT
        else if 0 < pkt.xVel i then DIRECTION_RIGHT else dir0
      let dir2 := if pkt.yVel i < 0 then DIRECTION_DOWN
        else if 0 < pkt.yVel i then DIRECTION_UP else dir1
      let mrec : Movement := { movX := pkt.xVel i, movY := pkt.yVel i, lastDirection := dir2 }
      let w2 := { w1 with movement := updF w1.movement e mrec }
      let posr : Position := { x := pkt.xPos i, y := pkt.yPos i, level := pkt.floor }
      { w2 with position := updF w2.position e posr }
  else w

/-- `client_update_pos` (ClientUpdateSystem.cpp:197-235): a no-op unless the
packet's floor equals the local player's current level; otherwise runs the
per-slot body over slots `0 .. MAX_PLAYERS - 1`. -/
def client_update_pos (C : Consts) (st : CState) (pkt : PKT_ALL_POS_UPDATE) : CState :=
  if pkt.floor = (st.world.position (st.player_table st.controllable_playerNo)).level then
    let w1 := (List.range C.MAX_PLAYERS).foldl
      (client_update_pos_slot st.player_table st.controllable_playerNo pkt) st.world
    { st with world := w1 }
  else st

/-- The mirroring loop of `client_update_objectives`
(ClientUpdateSystem.cpp:257-262): starting at index `i` with `n` iterations
left, stop at the first zero capture byte, otherwise copy the byte into the
table entry's cached state and continue. -/
def mirror_objectives (captured : Nat → Nat) : Nat → (Nat → ObjCache) → Nat → (Nat → ObjCache)
  | _, tbl, 0 => tbl
  | i, tbl, n + 1 =>
    if captured i = 0 then tbl
    else mirror_objectives captured (i + 1)
      (updF tbl i { obj_state := captured i, entity_no := (tbl i).entity_no }) n

/-- `client_update_objectives` (ClientUpdateSystem.cpp:249-266).  Note the
source computes the floor offset from `world->position[controllable_playerNo]`
(indexing by slot number, not through the player table), zeroes the global
`player_team` on a terminal game status, mirrors capture bytes up to the first
zero, then reflects the current floor's table slice into the world. -/
def client_update_objectives (C : Consts) (st : CState) (pkt : PKT_OBJECTIVE_STATUS) : CState :=
  let obj_idx := ((st.world.position st.controllable_playerNo).level - 1).toNat * C.OBJECTIVES_PER_FLOOR
  let team1 := if pkt.game_status = GAME_TEAM1_WIN ∨ pkt.game_status = GAME_TEAM2_WIN
    then 0 else st.player_team
  let tbl1 := mirror_objectives pkt.objectives_captured 0 st.objective_table C.MAX_OBJECTIVES
  let reflect := fun (w : World) (k : Nat) =>
    let orec : ObjectiveRec := { status := (tbl1 (obj_idx + k)).obj_state }
    { w with objective := updF w.objective (tbl1 (obj_idx + k)).entity_no orec }
  let w1 := (List.range C.OBJECTIVES_PER_FLOOR).foldl reflect st.world
  { st with world := w1, objective_table := tbl1, player_team := team1 }

/-- The body of the entity loop of `client_update_floor`
(ClientUpdateSystem.cpp:172-179): for every entity carrying the objective
component, write the entity number into the table entry at `obj_idx` and copy
that entry's cached state into the entity's objective status.  `obj_idx` is
never incremented in the source. -/
def client_update_floor_entity (obj_idx : Nat) (acc : World × (Nat → ObjCache)) (i : Nat) :
    World × (Nat → ObjCache) :=
  if IN_THIS_COMPONENT (acc.1.mask i) COMPONENT_OBJECTIVE then
    let tbl1 := updF acc.2 obj_idx { obj_state := (acc.2 obj_idx).obj_state, entity_no := i }
    ({ acc.1 with objective := updF acc.1.objective i { status := (tbl1 obj_idx).obj_state } }, tbl1)
  else acc

/-- `client_update_floor` (ClientUpdateSystem.cpp:161-182): overwrite the
local player's level and position, then run the entity loop (the
floor-geometry rebuild is an external collaborator with no effect on this
state), and clear `floor_change_flag`. -/
def client_update_floor (C : Consts) (st : CState) (pkt : PKT_FLOOR_MOVE) : CState :=
  let e := st.player_table st.controllable_playerNo
  let posr : Position := { x := pkt.xPos, y := pkt.yPos, level := (pkt.new_floor : Int) }
  let w1 := { st.world with position := updF st.world.position e posr }
  let obj_idx := (pkt.new_floor - 1) * C.OBJECTIVES_PER_FLOOR
  let wt := (List.range C.MAX_ENTITIES).foldl (client_update_floor_entity obj_idx)
    (w1, st.objective_table)
  { st with world := wt.1, objective_table := wt.2, floor_change_flag := 0 }

/-- `client_update_info` (ClientUpdateSystem.cpp:429-447): returns the denial
code untouched on a denied connection; otherwise records team and player
number on every controllable player entity, remembers the local slot number in
`controllable_playerNo` and maps that slot to the entity. -/
def client_update_info (C : Consts) (st : CState) (pkt : PKT_PLAYER_CONNECT) : CState × Nat :=
  if pkt.connect_code = CONNECT_CODE_DENIED then (st, CONNECT_CODE_DENIED)
  else
    let step := fun (s : CState) (i : Nat) =>
      let bits := COMPONENT_MOVEMENT ||| COMPONENT_POSITION ||| COMPONENT_PLAYER ||| COMPONENT_CONTROLLABLE
      if IN_THIS_COMPONENT (s.world.mask i) bits then
        let prec : PlayerRec :=
          { playerNo := pkt.clients_player_number
            teamNo := pkt.clients_team_number
            readyStatus := (s.world.player i).readyStatus }
        let w1 := { s.world with player := updF s.world.player i prec }
        { s with
            world := w1
            controllable_playerNo := pkt.clients_player_number
            player_table := updF s.player_table pkt.clients_player_number i }
      else s
    ((List.range C.MAX_ENTITIES).foldl step st, CONNECT_CODE_ACCEPTED)

/-- One iteration of the dispatch loop of `client_update_system`
(ClientUpdateSystem.cpp:79-121): while `floor_change_flag` is 1 only
`P_FLOOR_MOVE` is handled; otherwise dispatch on the packet type (type 7 and
unknown types are no-ops).  Returns the updated state and `some (-1)` when a
denied connect packet aborts the cycle. -/
def dispatch_packet (C : Consts) (st : CState) (t : Nat) (pl : Payload) : CState × Option Int :=
  if st.floor_change_flag = 1 then
    if t = P_FLOOR_MOVE then
      match pl with
      | Payload.floorMove p => (client_update_floor C st p, none)
      | _ => (st, none)
    else (st, none)
  else if t = P_CONNECT then
    match pl with
    | Payload.connect p =>
      let sc := client_update_info C st p
      if sc.2 = CONNECT_CODE_DENIED then (sc.1, some (-1)) else (sc.1, none)
    | _ => (st, none)
  else if t = G_STATUS then
    match pl with
    | Payload.gameStatus p => (client_update_status C st p, none)
    | _ => (st, none)
  else if t = P_CHAT then
    match pl with
    | Payload.chat msg => (client_update_chat st msg, none)
    | _ => (st, none)
  else if t = P_OBJCTV_LOC then
    match pl with
    | Payload.objStatus p => (client_update_objectives C st p, none)
    | _ => (st, none)
  else if t = 7 then (st, none)
  else if t = P_OBJSTATUS then
    match pl with
    | Payload.objStatus p => (client_update_objectives C st p, none)
    | _ => (st, none)
  else if t = G_ALLPOSUPDATE then
    match pl with
    | Payload.allPos p => (client_update_pos C st p, none)
    | _ => (st, none)
  else if t = P_FLOOR_MOVE then
    match pl with
    | Payload.floorMove p => (client_update_floor C st p, none)
    | _ => (st, none)
  else (st, none)

/-- The packet loop of `client_update_system` (ClientUpdateSystem.cpp:76-125):
process the fetched batch in order, returning `-1` immediately on a denied
connection and `0` after the last packet. -/
def process_packets (C : Consts) (st : CState) : List (Nat × Payload) → CState × Int
  | [] => (st, 0)
  | (t, pl) :: rest =>
    let r := dispatch_packet C st t pl
    match r.2 with
    | some code => (r.1, code)
    | none => process_packets C r.1 rest

/-- `client_update_system` (ClientUpdateSystem.cpp:46-126) for a normal batch
(packet count not equal to `NET_SHUTDOWN`): `-3` when the network module is
not initialised, otherwise the packet loop.  The `NET_SHUTDOWN` branch is
modelled byte-accurately by `client_update_system_shutdown` below. -/
def client_update_system_batch (C : Consts) (network_ready : Bool) (st : CState)
    (pkts : List (Nat × Payload)) : CState × Int :=
  if network_ready = false then (st, -3)
  else process_packets C st pkts

/-- Byte-level state of the two lookup tables as allocated by
`init_client_update` (ClientUpdateSystem.cpp:454-468): `player_table` is
`MAX_PLAYERS` entries of `sizeof(unsigned int) = 4` bytes; `objective_table`
is `MAX_OBJECTIVES` entries of `sizeof(objective_cache) = 4` bytes (a `char`
followed by a 2-byte-aligned `short`). -/
structure TablesBytes where
  player_bytes : List Nat
  objective_bytes : List Nat
  network_ready : Bool

/-- `memset(p, v, n)`: overwrite the first `n` bytes with `v`. -/
def memset_bytes (v : Nat) : List Nat → Nat → List Nat
  | bs, 0 => bs
  | [], _ + 1 => []
  | _ :: bs, n + 1 => v :: memset_bytes v bs n

/-- The 32-bit little-endian `unsigned int` entry at index `i` of the player
table's byte image. -/
def table_entry (bs : List Nat) (i : Nat) : Nat :=
  bs.getD (4 * i) 0 + 256 * bs.getD (4 * i + 1) 0 +
    65536 * bs.getD (4 * i + 2) 0 + 16777216 * bs.getD (4 * i + 3) 0

/-- The cached `obj_state` byte of entry `i` of the objective table's byte
image (offset 0 of the 4-byte `objective_cache`). -/
def obj_entry_state (bs : List Nat) (i : Nat) : Nat := bs.getD (4 * i) 0

/-- The `NET_SHUTDOWN` branch of `client_update_system`
(ClientUpdateSystem.cpp:59-74), byte-accurately: the error string is surfaced
to stderr, then `memset(player_table, 255, MAX_PLAYERS)` and
`memset(objective_table, 255, MAX_OBJECTIVES)` run (each count is a byte
count), `network_ready` is cleared and `-2` is returned without reading any
packet. -/
def client_update_system_shutdown (C : Consts) (s : TablesBytes) : TablesBytes × Int :=
  ({ player_bytes := memset_bytes 255 s.player_bytes C.MAX_PLAYERS
     objective_bytes := memset_bytes 255 s.objective_bytes C.MAX_OBJECTIVES
     network_ready := false }, -2)

/-- Modelled from the spec: the gameplay-facing `isConnected()` (§6) reports
whether the network layer is ready. -/
def isConnected (s : TablesBytes) : Bool := s.network_ready

/-- What arrives on the reliable socket for one `recv_tcp_packet` call: an I/O
error, an orderly close (zero bytes read), or a framed packet whose 4-byte
type header is `ptype` and whose payload bytes follow. -/
inductive WireIn where
  | ioError
  | closed
  | data (ptype : Nat) (payload : List Nat)

/-- The result of one `recv_tcp_packet` call: the returned buffer (`none` is
the C `NULL`), the value of `cnt_errno` after the call, and the index into
`packet_sizes` the call read, if any (recording every size-table access makes
out-of-range reads observable). -/
structure RecvOut where
  packet : Option (List Nat)
  errno : Int
  sizeIdxRead : Option Nat
deriving DecidableEq

/-- `recv_tcp_packet` (ServerCommunication.cpp:342-381).  After the framing
read: a keep-alive returns `NULL` leaving `cnt_errno` untouched; then the
corruption test is literally `(*packet_type <= 0 || *packet_type > NUM_PACKETS)
&& *packet_type` on an `uint32_t`; a surviving type reaches
`packet_sizes[(*packet_type) - 1]`, where the subtraction wraps at `2^32`. -/
def recv_tcp_packet (w : WireIn) (errno : Int) : RecvOut :=
  match w with
  | WireIn.ioError => { packet := none, errno := ERR_TCP_RECV_FAIL, sizeIdxRead := none }
  | WireIn.closed => { packet := none, errno := ERR_CONN_CLOSED, sizeIdxRead := none }
  | WireIn.data t payload =>
    if t = P_KEEPALIVE then { packet := none, errno := errno, sizeIdxRead := none }
    else if (t ≤ 0 ∨ NUM_PACKETS < t) ∧ t ≠ 0 then
      { packet := none, errno := ERR_CORRUPTED, sizeIdxRead := none }
    else
      { packet := some payload, errno := errno, sizeIdxRead := some ((t + (4294967296 - 1)) % 4294967296) }

/-- The result of the type-validation step of `recv_udp_packet`
(ServerCommunication.cpp:420-427): either the corruption signal, or the size
table is read at `t - 1`. -/
inductive UdpTypeOut where
  | corrupt
  | sizeRead (idx : Nat)
deriving DecidableEq

/-- The type check of `recv_udp_packet` (ServerCommunication.cpp:420-427):
`if (*packet_type < 1 || *packet_type > NUM_PACKETS)` signals corruption,
otherwise `packet_sizes[(*packet_type) - 1]` is read. -/
def recv_udp_type_check (t : Nat) : UdpTypeOut :=
  if t < 1 ∨ NUM_PACKETS < t then UdpTypeOut.corrupt
  else UdpTypeOut.sizeRead (t - 1)

/-- One write performed on the pipe to the network router:
`write_packet(fd, type, buf)` (where `buf` may be the C `NULL`) or the
trailing timestamp write. -/
inductive PipeWrite where
  | packet (ptype : Nat) (buf : Option (List Nat))
  | timestamp (ts : Nat)
deriving DecidableEq

/-- The wire type header of the input (what `recv_tcp_packet` stored into
`*packet_type`; 0 stands for the indeterminate value of the error cases,
which never reach a pipe write that depends on it in the claims below). -/
def wireType : WireIn → Nat
  | WireIn.ioError => 0
  | WireIn.closed => 0
  | WireIn.data t _ => t

/-- `handle_tcp_in` (ServerCommunication.cpp:233-275): on a `NULL` buffer the
three error checks test the current `cnt_errno` (which a silent keep-alive
drop leaves at its prior value); any value not matching them falls through to
`write_packet`/`write_pipe`, forwarding the type, the (possibly `NULL`)
buffer, and the timestamp.  Returns the list of pipe writes and the return
code (`-1` fatal, `-2` corrupted-drop, `0` continue). -/
def handle_tcp_in (w : WireIn) (errnoPrior : Int) (ts : Nat) : List PipeWrite × Int :=
  let r := recv_tcp_packet w errnoPrior
  match r.packet with
  | none =>
    if r.errno = ERR_TCP_RECV_FAIL then ([], -1)
    else if r.errno = ERR_CONN_CLOSED then ([], -1)
    else if r.errno = ERR_CORRUPTED then ([], -2)
    else ([PipeWrite.packet (wireType w) none, PipeWrite.timestamp ts], 0)
  | some p => ([PipeWrite.packet (wireType w) (some p), PipeWrite.timestamp ts], 0)

/-- `read_type` on the send pipe (PipeUtils is not in the sources, but its
behaviour — read one 32-bit word — is fixed by every call site): pop the
leading word of the pipe content. -/
def read_type (pipe : List Nat) : Nat × List Nat := (pipe.headD 0, pipe.tail)

/-- `grab_send_packet` (ServerCommunication.cpp:515-532): read the type word;
any value `>= 90` reports failure (`ret = -1`) and returns `NULL` without
reading a payload; otherwise read `sizes (type - 1)` payload words and report
success (`ret = 1`).  `sizes` abstracts the `packet_sizes` table (its contents
live in the missing `Packets.h`). -/
def grab_send_packet (sizes : Nat → Nat) (pipe : List Nat) :
    Option (Nat × List Nat) × Int × List Nat :=
  let tr := read_type pipe
  if 90 ≤ tr.1 then (none, -1, tr.2)
  else
    let sz := sizes (tr.1 - 1)
    (some (tr.1, tr.2.take sz), 1, tr.2.drop sz)

/-- Modelled from the spec: the `TCP`/`UDP` protocol identifiers of the
missing headers; only their distinctness matters. -/
def TCP : Nat := 1

def UDP : Nat := 2

/-- `get_protocol` (ServerCommunication.cpp:660-686).  The switch has no
default; for a type outside the enumerated thirteen the C variable `protocol`
stays uninitialised, modelled here by `0` (neither `TCP` nor `UDP`). -/
def get_protocol (t : Nat) : Nat :=
  if t = P_NAME ∨ t = P_CONNECT ∨ t = G_STATUS ∨ t = P_CHAT ∨ t = P_CLNT_LOBBY ∨
      t = P_OBJCTV_LOC ∨ t = P_UNDEF ∨ t = P_KEEPALIVE ∨ t = P_OBJSTATUS then TCP
  else if t = P_POSUPDATE ∨ t = P_FLOOR_MOVE_REQ ∨ t = P_FLOOR_MOVE ∨ t = P_TAGGING then UDP
  else 0

/-- A send performed on a transport socket by the send worker. -/
inductive SendAction where
  | tcp (ptype : Nat) (data : List Nat)
  | udp (ptype : Nat) (data : List Nat)
deriving DecidableEq

/-- One iteration of the `while(1)` loop of `send_thread_func`
(ServerCommunication.cpp:121-148): pull one tuple via `grab_send_packet`; on
`ret != 1` skip to the next tuple; otherwise dispatch by protocol.  Returns
the sends performed, whether the worker keeps running (the loop has no exit),
and the remaining pipe content. -/
def send_thread_iteration (sizes : Nat → Nat) (pipe : List Nat) :
    List SendAction × Bool × List Nat :=
  let g := grab_send_packet sizes pipe
  match g.1 with
  | none => ([], true, g.2.2)
  | some td =>
    let proto := get_protocol td.1
    if proto = TCP then ([SendAction.tcp td.1 td.2], true, g.2.2)
    else if proto = UDP then ([SendAction.udp td.1 td.2], true, g.2.2)
    else ([], true, g.2.2)

/-! Concrete fixtures for the closed evaluations and witnesses below. -/

/-- Table sizes used by the shutdown evaluation: `MAX_PLAYERS = 8`,
`MAX_OBJECTIVES = 8`. -/
def fixConstsShutdown : Consts := ⟨8, 8, 2, 4⟩

/-- Byte image of freshly used tables: player entries 0-6 unassigned, entry 7
mapped to entity 5; objective entry 7 cached in state 3 with entity 9. -/
def fixShutdownTables : TablesBytes :=
  { player_bytes := List.replicate 28 255 ++ [5, 0, 0, 0]
    objective_bytes := List.replicate 28 255 ++ [3, 0, 9, 0]
    network_ready := true }

/-- Constants for the floor-move evaluation: 2 players, 8 objectives, 2
objectives per floor, 6 entities. -/
def fixConstsFloor : Consts := ⟨2, 8, 2, 6⟩

/-- World for the floor-move evaluation: entities 3 and 5 carry the objective
component; everything else quiescent. -/
def fixWorldFloor : World :=
  { mask := fun i => if i = 3 ∨ i = 5 then COMPONENT_OBJECTIVE else 0
    position := fun _ => { x := 0, y := 0, level := 0 }
    movement := fun _ => { movX := 0, movY := 0, lastDirection := 0 }
    player := fun _ => { playerNo := 0, teamNo := 0, readyStatus := 0 }
    collision := fun _ => { ctype := 0 }
    objective := fun _ => { status := 0 }
    animation := fun _ => default_animation_path
    nextEntity := 6
    alive := fun i => decide (i < 6)
    assets := fun p => AnimLoad.ok p }

/-- State for the floor-move evaluation: local slot 0 mapped to entity 1; the
objective cache marks entry `i` with the recognisable entity number `900+i`. -/
def fixStFloor : CState :=
  { world := fixWorldFloor
    player_table := fun i => if i = 0 then 1 else UNASSIGNED
    objective_table := fun i => { obj_state := 0, entity_no := 900 + i }
    controllable_playerNo := 0
    player_team := 0
    floor_change_flag := 0
    chat_log := [] }

/-- A floor-move packet to floor 1 at position (7, 9). -/
def fixPktFloor : PKT_FLOOR_MOVE := { new_floor := 1, xPos := 7, yPos := 9 }

/-- Constants for the objective-status evaluation. -/
def fixConstsObj : Consts := ⟨1, 2, 1, 1⟩

/-- World for the objective-status evaluation: one entity on floor 1. -/
def fixWorldObj : World :=
  { mask := fun _ => 0
    position := fun _ => { x := 0, y := 0, level := 1 }
    movement := fun _ => { movX := 0, movY := 0, lastDirection := 0 }
    player := fun _ => { playerNo := 0, teamNo := 0, readyStatus := 0 }
    collision := fun _ => { ctype := 0 }
    objective := fun _ => { status := 0 }
    animation := fun _ => default_animation_path
    nextEntity := 1
    alive := fun i => decide (i < 1)
    assets := fun p => AnimLoad.ok p }

/-- State for the objective-status evaluation, with a running team. -/
def fixStObj : CState :=
  { world := fixWorldObj
    player_table := fun _ => 0
    objective_table := fun _ => { obj_state := 0, entity_no := 0 }
    controllable_playerNo := 0
    player_team := 5
    floor_change_flag := 0
    chat_log := [] }

/-- Constants with a single player slot. -/
def fixConstsOne : Consts := ⟨1, 1, 1, 1⟩

/-- World for the status evaluations: entity 10 exists with guard collision
class and the default animation installed. -/
def fixWorldStatus : World :=
  { mask := fun _ => 0
    position := fun _ => { x := 0, y := 0, level := 0 }
    movement := fun _ => { movX := 0, movY := 0, lastDirection := 0 }
    player := fun _ => { playerNo := 0, teamNo := 0, readyStatus := 0 }
    collision := fun i => if i = 10 then { ctype := COLLISION_GUARD } else { ctype := 0 }
    objective := fun _ => { status := 0 }
    animation := fun _ => default_animation_path
    nextEntity := 11
    alive := fun i => decide (i = 10)
    assets := fun p => AnimLoad.ok p }

/-- State whose slot 0 is already assigned to entity 10. -/
def fixStStatusAssigned : CState :=
  { world := fixWorldStatus
    player_table := fun i => if i = 0 then 10 else UNASSIGNED
    objective_table := fun _ => { obj_state := 0, entity_no := 0 }
    controllable_playerNo := 5
    player_team := 0
    floor_change_flag := 0
    chat_log := [] }

/-- State with an entirely unassigned player table. -/
def fixStStatusEmpty : CState :=
  { world := fixWorldStatus
    player_table := fun _ => UNASSIGNED
    objective_table := fun _ => { obj_state := 0, entity_no := 0 }
    controllable_playerNo := 5
    player_team := 0
    floor_change_flag := 0
    chat_log := [] }

/-- A status packet marking every slot valid on team `ROBBERS`, ready, with
character `SAM`. -/
def fixPktStatus : PKT_GAME_STATUS :=
  { player_valid := fun _ => true
    otherPlayers_teams := fun _ => ROBBERS
    readystatus := fun _ => 1
    characters := fun _ => SAM }

/-- Constants for the position-update evaluations: two player slots. -/
def fixConstsPos : Consts := ⟨2, 1, 1, 12⟩

/-- Player table for the position-update evaluations: slot 0 (local) is
entity 10, slot 1 is entity 11, the rest unassigned. -/
def fixPlayerTablePos : Nat → Nat :=
  fun i => if i = 0 then 10 else if i = 1 then 11 else UNASSIGNED

/-- World for the position-update evaluations: the local entity 10 stands on
floor 1; the remote entity 11 is rendered and collidable. -/
def fixWorldPos : World :=
  { mask := fun i => if i = 11
      then COMPONENT_RENDER_PLAYER ||| COMPONENT_COLLISION ||| COMPONENT_POSITION
      else COMPONENT_POSITION
    position := fun i => { x := 3, y := 4, level := if i = 10 then 1 else 2 }
    movement := fun _ => { movX := 1, movY := 0, lastDirection := DIRECTION_RIGHT }
    player := fun _ => { playerNo := 0, teamNo := 0, readyStatus := 0 }
    collision := fun _ => { ctype := 0 }
    objective := fun _ => { status := 0 }
    animation := fun _ => default_animation_path
    nextEntity := 12
    alive := fun i => decide (i < 12)
    assets := fun p => AnimLoad.ok p }

/-- State for the position-update evaluations. -/
def fixStPos : CState :=
  { world := fixWorldPos
    player_table := fixPlayerTablePos
    objective_table := fun _ => { obj_state := 0, entity_no := 0 }
    controllable_playerNo := 0
    player_team := 0
    floor_change_flag := 0
    chat_log := [] }

/-- A position packet for floor 2 (not the local player's floor) with no slot
flagged on-floor. -/
def fixPktPosMismatch : PKT_ALL_POS_UPDATE :=
  { floor := 2
    players_on_floor := fun _ => false
    xPos := fun _ => 0
    yPos := fun _ => 0
    xVel := fun _ => 0
    yVel := fun _ => 0 }

/-- A position packet for floor 1 (the local player's floor) with no slot
flagged on-floor. -/
def fixPktPosMatch : PKT_ALL_POS_UPDATE :=
  { floor := 1
    players_on_floor := fun _ => false
    xPos := fun _ => 0
    yPos := fun _ => 0
    xVel := fun _ => 0
    yVel := fun _ => 0 }

/-- The position-update state with the floor-change flag raised. -/
def fixStFlag : CState := { fixStPos with floor_change_flag := 1 }

/-- The capture bytes `[1, 1, 0, 1]` of the mirroring example (0 past the
pattern). -/
def fixCaptured : Nat → Nat := fun j => if j = 0 then 1 else if j = 1 then 1 else if j = 3 then 1 else 0

/-- An objective-status packet with capture bytes `[1, 1, 0, 1, 0, ...]`. -/
def fixPktObjMirror : PKT_OBJECTIVE_STATUS := { game_status := 0, objectives_captured := fixCaptured }

/-- Constants for the mirroring example: four objectives. -/
def fixConstsMirror : Consts := ⟨1, 4, 1, 1⟩

/-- C1: the `NET_SHUTDOWN` branch does return the shutdown code `-2` and
clears the network-ready flag (so `isConnected` reports false), but it does
NOT set every one of the `MAX_PLAYERS` player-table entries to the unassigned
sentinel: `memset(player_table, 255, MAX_PLAYERS)` overwrites `MAX_PLAYERS`
bytes of a table of 4-byte entries, so with `MAX_PLAYERS = 8` only entries 0-1
are cleared and the assignment in entry 7 survives; likewise
`memset(objective_table, 255, MAX_OBJECTIVES)` leaves objective entry 7's
cached state untouched. -/
theorem c1_net_shutdown_incomplete_table_clear :
    (client_update_system_shutdown fixConstsShutdown fixShutdownTables).2 = -2 ∧
    isConnected (client_update_system_shutdown fixConstsShutdown fixShutdownTables).1 = false ∧
    table_entry (client_update_system_shutdown fixConstsShutdown fixShutdownTables).1.player_bytes 0 =
      UNASSIGNED ∧
    table_entry (client_update_system_shutdown fixConstsShutdown fixShutdownTables).1.player_bytes 7 = 5 ∧
    ¬ table_entry (client_update_system_shutdown fixConstsShutdown fixShutdownTables).1.player_bytes 7 =
      UNASSIGNED ∧
    obj_entry_state (client_update_system_shutdown fixConstsShutdown fixShutdownTables).1.objective_bytes 7 = 3 ∧
    ¬ obj_entry_state (client_update_system_shutdown fixConstsShutdown fixShutdownTables).1.objective_bytes 7 = 255 := by
  decide

/-- C2: `client_update_floor` does set the local player's level and position
from the packet and clears the floor-change flag, but it does NOT re-seed the
whole objective-table slice `[(F-1)*K, F*K)`: `obj_idx` is never incremented,
so with `K = 2`, floor 1 and objective entities 3 and 5, entry 0 ends up
holding the last objective entity (5) and entry 1 keeps its stale cache entry
(entity 901, which carries no objective component). -/
theorem c2_floor_move_reseeds_single_entry :
    ((client_update_floor fixConstsFloor fixStFloor fixPktFloor).world.position 1).level = 1 ∧
    ((client_update_floor fixConstsFloor fixStFloor fixPktFloor).world.position 1).x = 7 ∧
    ((client_update_floor fixConstsFloor fixStFloor fixPktFloor).world.position 1).y = 9 ∧
    (client_update_floor fixConstsFloor fixStFloor fixPktFloor).objective_table 0 =
      { obj_state := 0, entity_no := 5 } ∧
    (client_update_floor fixConstsFloor fixStFloor fixPktFloor).objective_table 1 =
      fixStFloor.objective_table 1 ∧
    fixStFloor.objective_table 1 = { obj_state := 0, entity_no := 901 } ∧
    IN_THIS_COMPONENT (fixWorldFloor.mask 901) COMPONENT_OBJECTIVE = false ∧
    (client_update_floor fixConstsFloor fixStFloor fixPktFloor).floor_change_flag = 0 := by
  decide

/-- C3: a reliable-transport packet of type 0 is NOT rejected as corrupt: the
check `(*packet_type <= 0 || *packet_type > NUM_PACKETS) && *packet_type`
excludes 0, so the code falls through, leaves `cnt_errno` at its prior value
(here the initial `-1`), and reads `packet_sizes[(uint32_t)(0 - 1)]` — an
out-of-range index `2^32 - 1 ≥ NUM_PACKETS`.  The unreliable path's check
`*packet_type < 1 || *packet_type > NUM_PACKETS` does signal corruption on 0. -/
theorem c3_tcp_type_zero_reads_size_table :
    (recv_tcp_packet (WireIn.data 0 []) ERR_CONN_FAIL).sizeIdxRead = some 4294967295 ∧
    NUM_PACKETS < 4294967295 ∧
    ¬ (recv_tcp_packet (WireIn.data 0 []) ERR_CONN_FAIL).errno = ERR_CORRUPTED ∧
    (recv_tcp_packet (WireIn.data 0 []) ERR_CONN_FAIL).packet = some [] ∧
    recv_udp_type_check 0 = UdpTypeOut.corrupt := by
  decide

/-- C4: a keep-alive received on the reliable transport is NOT consumed
silently by `handle_tcp_in`: `recv_tcp_packet` returns `NULL` without setting
`cnt_errno`, so with `cnt_errno` at its initial `-1` none of the three error
tests match and control falls through to `write_packet`/`write_pipe`,
forwarding the keep-alive type, the `NULL` buffer, and a timestamp to the
router pipe (returning 0). -/
theorem c4_keepalive_forwarded_to_router :
    handle_tcp_in (WireIn.data P_KEEPALIVE []) ERR_CONN_FAIL 7 =
      ([PipeWrite.packet P_KEEPALIVE none, PipeWrite.timestamp 7], 0) ∧
    ¬ (handle_tcp_in (WireIn.data P_KEEPALIVE []) ERR_CONN_FAIL 7).1 = [] := by
  decide

/-- C5: an objective-status packet carrying a terminal game status
(`GAME_TEAM1_WIN` or `GAME_TEAM2_WIN`) is NOT surfaced to the caller of
`client_update_system` as a distinguishable outcome: the batch returns the
normal no-error code 0 (the only observable effect is the global
`player_team` being zeroed). -/
theorem c5_game_end_returns_normal_code :
    (client_update_system_batch fixConstsObj true fixStObj
      [(P_OBJSTATUS, Payload.objStatus ⟨GAME_TEAM1_WIN, fun _ => 0⟩)]).2 = 0 ∧
    (client_update_system_batch fixConstsObj true fixStObj
      [(P_OBJSTATUS, Payload.objStatus ⟨GAME_TEAM1_WIN, fun _ => 0⟩)]).1.player_team = 0 ∧
    (client_update_system_batch fixConstsObj true fixStObj
      [(P_OBJSTATUS, Payload.objStatus ⟨GAME_TEAM2_WIN, fun _ => 0⟩)]).2 = 0 ∧
    (client_update_system_batch fixConstsObj true fixStObj []).2 = 0 := by
  decide

/-- While the floor-change flag is 1, a batch containing no `P_FLOOR_MOVE`
packet leaves the state untouched and returns 0. -/
theorem process_packets_flag_one (C : Consts) (st : CState) (h1 : st.floor_change_flag = 1) :
    ∀ pkts : List (Nat × Payload), (∀ tp ∈ pkts, tp.1 ≠ P_FLOOR_MOVE) →
      process_packets C st pkts = (st, 0)
  | [], _ => rfl
  | (t, pl) :: tl, h2 => by
    have ht : t ≠ P_FLOOR_MOVE := h2 (t, pl) (List.mem_cons_self _ _)
    have hd : dispatch_packet C st t pl = (st, none) := by
      simp [dispatch_packet, h1, ht]
    simp only [process_packets, hd]
    exact process_packets_flag_one C st h1 tl fun tp htp => h2 tp (List.mem_cons_of_mem _ htp)

/-- C9: while `floor_change_flag = 1`, `client_update_system`'s loop discards
every packet whose type is not `P_FLOOR_MOVE` without mutating the world, the
player table or the objective table (a whole batch of such packets returns
the state unchanged with code 0); a single non-floor-move dispatch is the
identity on the state; and processing a `P_FLOOR_MOVE` packet clears the
flag. -/
theorem c9_flag_set_discards_non_floor_packets (C : Consts) (st : CState)
    (pkts : List (Nat × Payload)) (h1 : st.floor_change_flag = 1)
    (h2 : ∀ tp ∈ pkts, tp.1 ≠ P_FLOOR_MOVE) :
    process_packets C st pkts = (st, 0) ∧
    (∀ t pl, t ≠ P_FLOOR_MOVE → dispatch_packet C st t pl = (st, none)) ∧
    (∀ p : PKT_FLOOR_MOVE, (client_update_floor C st p).floor_change_flag = 0) := by
  refine ⟨process_packets_flag_one C st h1 pkts h2, ?_, ?_⟩
  · intro t pl ht
    simp [dispatch_packet, h1, ht]
  · intro p
    rfl

/-- Witness for C9: a concrete state with the flag raised discards a
concrete status packet wholesale. -/
theorem c9_flag_set_discards_witness :
    fixStFlag.floor_change_flag = 1 ∧
    process_packets fixConstsPos fixStFlag [(G_STATUS, Payload.raw)] = (fixStFlag, 0) := by
  refine ⟨rfl, (c9_flag_set_discards_non_floor_packets fixConstsPos fixStFlag _ rfl ?_).1⟩
  intro tp htp
  rw [List.mem_singleton] at htp
  subst htp
  decide

/-- C10: a queued tuple whose type word is 90 or more makes
`grab_send_packet` report failure (`NULL`, `ret = -1`) without reading a
payload, and the send worker's iteration performs no send on either transport
and keeps running. -/
theorem c10_send_skips_type_ge_90 (sizes : Nat → Nat) (pipe : List Nat)
    (h : 90 ≤ pipe.headD 0) :
    (send_thread_iteration sizes pipe).1 = [] ∧
    (send_thread_iteration sizes pipe).2.1 = true ∧
    (grab_send_packet sizes pipe).1 = none ∧
    (grab_send_packet sizes pipe).2.1 = -1 := by
  have hg : grab_send_packet sizes pipe = (none, -1, pipe.tail) := by
    simp only [grab_send_packet, read_type]
    rw [if_pos h]
  refine ⟨?_, ?_, ?_, ?_⟩ <;> simp [send_thread_iteration, hg]

/-- Witness for C10: type word 95 is skipped and the worker continues. -/
theorem c10_send_skips_witness :
    90 ≤ ([95, 1, 2].headD 0) ∧
    (send_thread_iteration (fun _ => 2) [95, 1, 2]).1 = [] ∧
    (send_thread_iteration (fun _ => 2) [95, 1, 2]).2.1 = true := by
  refine ⟨by decide, ?_, ?_⟩
  · exact (c10_send_skips_type_ge_90 (fun _ => 2) [95, 1, 2] (by decide)).1
  · exact (c10_send_skips_type_ge_90 (fun _ => 2) [95, 1, 2] (by decide)).2.1

/-- Characterisation of the mirroring loop: entry `k` is rewritten exactly
when it lies in the loop's window starting at `i` and no capture byte from
`i` through `k` is zero; otherwise it is untouched. -/
theorem mirror_objectives_spec (captured : Nat → Nat) :
    ∀ (n i : Nat) (tbl : Nat → ObjCache) (k : Nat),
      mirror_objectives captured i tbl n k =
        if i ≤ k ∧ k < i + n ∧ (∀ j, i ≤ j → j ≤ k → captured j ≠ 0)
        then { obj_state := captured k, entity_no := (tbl k).entity_no }
        else tbl k
  | 0, i, tbl, k => by
    rw [mirror_objectives, if_neg]
    rintro ⟨h1, h2, -⟩
    omega
  | n + 1, i, tbl, k => by
    rw [mirror_objectives]
    by_cases h0 : captured i = 0
    · rw [if_pos h0, if_neg]
      rintro ⟨h1, -, h3⟩
      exact h3 i (Nat.le_refl i) h1 h0
    · rw [if_neg h0]
      rw [mirror_objectives_spec captured n (i + 1) _ k]
      by_cases hk : k = i
      · subst hk
        rw [if_neg (by omega), if_pos]
        · simp [updF]
        · refine ⟨Nat.le_refl k, by omega, ?_⟩
          intro j hj1 hj2
          have hj : j = k := by omega
          subst hj
          exact h0
      · have hupd : updF tbl i { obj_state := captured i, entity_no := (tbl i).entity_no } k = tbl k := by
          simp [updF, hk]
        have hiff : (i + 1 ≤ k ∧ k < i + 1 + n ∧ ∀ j, i + 1 ≤ j → j ≤ k → captured j ≠ 0) ↔
            (i ≤ k ∧ k < i + (n + 1) ∧ ∀ j, i ≤ j → j ≤ k → captured j ≠ 0) := by
          constructor
          · rintro ⟨h1, h2, h3⟩
            refine ⟨by omega, by omega, ?_⟩
            intro j hj1 hj2
            by_cases hji : j = i
            · subst hji
              exact h0
            · exact h3 j (by omega) hj2
          · rintro ⟨h1, h2, h3⟩
            exact ⟨by omega, by omega, fun j hj1 hj2 => h3 j (by omega) hj2⟩
        by_cases hcond : i ≤ k ∧ k < i + (n + 1) ∧ ∀ j, i ≤ j → j ≤ k → captured j ≠ 0
        · rw [if_pos (hiff.mpr hcond), if_pos hcond, hupd]
        · rw [if_neg (fun hc => hcond (hiff.mp hc)), if_neg hcond, hupd]

/-- C7: `client_update_objectives` copies capture bytes into the objective
table exactly for the indices strictly before the first zero byte (within the
table's bounds); every entry at or after the first zero byte is left
unchanged by the mirroring loop. -/
theorem c7_objective_mirror_stops_at_first_zero (C : Consts) (st : CState)
    (pkt : PKT_OBJECTIVE_STATUS) (k : Nat) :
    ((∀ j, j ≤ k → pkt.objectives_captured j ≠ 0) → k < C.MAX_OBJECTIVES →
      (client_update_objectives C st pkt).objective_table k =
        { obj_state := pkt.objectives_captured k
          entity_no := (st.objective_table k).entity_no }) ∧
    ((∃ j, j ≤ k ∧ pkt.objectives_captured j = 0) →
      (client_update_objectives C st pkt).objective_table k = st.objective_table k) := by
  have hres : (client_update_objectives C st pkt).objective_table =
      mirror_objectives pkt.objectives_captured 0 st.objective_table C.MAX_OBJECTIVES := rfl
  rw [hres, mirror_objectives_spec]
  constructor
  · intro hall hk
    rw [if_pos ⟨Nat.zero_le k, by omega, fun j _ hj2 => hall j hj2⟩]
  · rintro ⟨j, hj, hz⟩
    rw [if_neg]
    rintro ⟨-, -, h3⟩
    exact h3 j (Nat.zero_le j) hj hz

/-- Witness for C7: with capture bytes `[1, 1, 0, 1]`, entry 1 (before the
first zero) is mirrored and entry 3 (after it) is untouched. -/
theorem c7_objective_mirror_witness :
    (∀ j, j ≤ 1 → fixPktObjMirror.objectives_captured j ≠ 0) ∧
    1 < fixConstsMirror.MAX_OBJECTIVES ∧
    (client_update_objectives fixConstsMirror fixStObj fixPktObjMirror).objective_table 1 =
      { obj_state := 1, entity_no := 0 } ∧
    (∃ j, j ≤ 3 ∧ fixPktObjMirror.objectives_captured j = 0) ∧
    (client_update_objectives fixConstsMirror fixStObj fixPktObjMirror).objective_table 3 =
      fixStObj.objective_table 3 := by
  refine ⟨by decide, by decide, ?_, ⟨2, by decide, by decide⟩, ?_⟩
  · exact (c7_objective_mirror_stops_at_first_zero fixConstsMirror fixStObj fixPktObjMirror 1).1
      (by decide) (by decide)
  · exact (c7_objective_mirror_stops_at_first_zero fixConstsMirror fixStObj fixPktObjMirror 3).2
      ⟨2, by decide, by decide⟩

/-- Whatever the load outcome (missing file, mid-file parse failure, or
success), `load_animation` only ever writes the entity's animation component:
every other world field and the allocator are untouched. -/
theorem load_animation_frames (path : String) (w : World) (e : Nat) :
    (load_animation path w e).1.nextEntity = w.nextEntity ∧
    (load_animation path w e).1.alive = w.alive ∧
    (load_animation path w e).1.mask = w.mask ∧
    (load_animation path w e).1.player = w.player ∧
    (load_animation path w e).1.collision = w.collision ∧
    (load_animation path w e).1.position = w.position ∧
    (load_animation path w e).1.movement = w.movement := by
  unfold load_animation
  cases hl : w.assets path <;> simp [hl]

/-- If the animation file does not open, `load_animation` returns `-1` and
the whole world — the animation component included — is untouched
(Graphics/animation_system.cpp:114-117). -/
theorem load_animation_no_file (path : String) (w : World) (e : Nat)
    (h : w.assets path = AnimLoad.noFile) :
    load_animation path w e = (w, -1) := by
  unfold load_animation
  rw [h]

/-- Witness for the open-failure path of the animation loader: on a world
whose asset map has no files, loading is the identity with code `-1`. -/
theorem load_animation_no_file_witness :
    ({ fixWorldStatus with assets := fun _ => AnimLoad.noFile } : World).assets
        cop_animation_path = AnimLoad.noFile ∧
    load_animation cop_animation_path
        ({ fixWorldStatus with assets := fun _ => AnimLoad.noFile } : World) 10 =
      (({ fixWorldStatus with assets := fun _ => AnimLoad.noFile } : World), -1) :=
  ⟨rfl, load_animation_no_file cop_animation_path
    ({ fixWorldStatus with assets := fun _ => AnimLoad.noFile } : World) 10 rfl⟩

/-- `change_player` never allocates or destroys entities and never touches a
component mask; it rewrites the mapped entity's player record and collision
class (the animation component is handed to `load_animation`, whose effect
depends on the asset file). -/
theorem change_player_frames (tbl : Nat → Nat) (w : World) (ty : Nat)
    (pkt : PKT_GAME_STATUS) (pn : Nat) :
    (change_player tbl w ty pkt pn).nextEntity = w.nextEntity ∧
    (change_player tbl w ty pkt pn).alive = w.alive ∧
    (change_player tbl w ty pkt pn).mask = w.mask ∧
    (change_player tbl w ty pkt pn).player (tbl pn) =
      { playerNo := pn, teamNo := pkt.otherPlayers_teams pn, readyStatus := pkt.readystatus pn } ∧
    (change_player tbl w ty pkt pn).collision (tbl pn) =
      { ctype := if ty = COPS then COLLISION_GUARD else COLLISION_HACKER } := by
  unfold change_player
  split
  · refine ⟨?_, ?_, ?_, ?_, ?_⟩
    · exact (load_animation_frames cop_animation_path _ _).1
    · exact (load_animation_frames cop_animation_path _ _).2.1
    · exact (load_animation_frames cop_animation_path _ _).2.2.1
    · rw [(load_animation_frames cop_animation_path _ _).2.2.2.1]
      simp [updF]
    · rw [(load_animation_frames cop_animation_path _ _).2.2.2.2.1]
      simp [updF]
  · simp only [setup_character_animation]
    refine ⟨?_, ?_, ?_, ?_, ?_⟩
    · exact (load_animation_frames (character_animation_file (pkt.characters pn)) _ _).1
    · exact (load_animation_frames (character_animation_file (pkt.characters pn)) _ _).2.1
    · exact (load_animation_frames (character_animation_file (pkt.characters pn)) _ _).2.2.1
    · rw [(load_animation_frames (character_animation_file (pkt.characters pn)) _ _).2.2.2.1]
      simp [updF]
    · rw [(load_animation_frames (character_animation_file (pkt.characters pn)) _ _).2.2.2.2.1]
      simp [updF]

/-- A conditional `change_player` (one of the three team tests of the
assigned branch) keeps the allocator, the liveness map and the masks. -/
theorem ite_change_player_frames (tbl : Nat → Nat) (ty : Nat) (pkt : PKT_GAME_STATUS)
    (pn : Nat) (c : Prop) [Decidable c] (w : World) :
    (if c then change_player tbl w ty pkt pn else w).nextEntity = w.nextEntity ∧
    (if c then change_player tbl w ty pkt pn else w).alive = w.alive ∧
    (if c then change_player tbl w ty pkt pn else w).mask = w.mask := by
  split
  · exact ⟨(change_player_frames tbl w ty pkt pn).1, (change_player_frames tbl w ty pkt pn).2.1,
      (change_player_frames tbl w ty pkt pn).2.2.1⟩
  · exact ⟨rfl, rfl, rfl⟩

/-- The assigned-slot branch keeps the allocator, the liveness map and the
component masks. -/
theorem status_assigned_world_frames (pkt : PKT_GAME_STATUS) (tbl : Nat → Nat)
    (w : World) (i : Nat) :
    (status_assigned_world pkt tbl w i).nextEntity = w.nextEntity ∧
    (status_assigned_world pkt tbl w i).alive = w.alive ∧
    (status_assigned_world pkt tbl w i).mask = w.mask := by
  have h1 := ite_change_player_frames tbl COPS pkt i (pkt.otherPlayers_teams i = COPS) w
  have h2 := ite_change_player_frames tbl ROBBERS pkt i (pkt.otherPlayers_teams i = ROBBERS)
    (if pkt.otherPlayers_teams i = COPS then change_player tbl w COPS pkt i else w)
  have h3 := ite_change_player_frames tbl ROBBERS pkt i (pkt.otherPlayers_teams i = 0)
    (if pkt.otherPlayers_teams i = ROBBERS
      then change_player tbl
        (if pkt.otherPlayers_teams i = COPS then change_player tbl w COPS pkt i else w)
        ROBBERS pkt i
      else if pkt.otherPlayers_teams i = COPS then change_player tbl w COPS pkt i else w)
  exact ⟨(h3.1.trans h2.1).trans h1.1, (h3.2.1.trans h2.2.1).trans h1.2.1,
    (h3.2.2.trans h2.2.2).trans h1.2.2⟩

/-- The assigned-slot branch rewrites the mapped entity's player record with
the packet's slot, team and ready values and resets its collision class by
team, for each of the three recognised team values. -/
theorem status_assigned_world_player (pkt : PKT_GAME_STATUS) (tbl : Nat → Nat)
    (w : World) (i : Nat)
    (hteam : pkt.otherPlayers_teams i = COPS ∨ pkt.otherPlayers_teams i = ROBBERS ∨
      pkt.otherPlayers_teams i = 0) :
    (status_assigned_world pkt tbl w i).player (tbl i) =
      { playerNo := i, teamNo := pkt.otherPlayers_teams i, readyStatus := pkt.readystatus i } ∧
    (status_assigned_world pkt tbl w i).collision (tbl i) =
      { ctype := if pkt.otherPlayers_teams i = COPS
          then COLLISION_GUARD else COLLISION_HACKER } := by
  rcases hteam with h | h | h
  · have e1 : status_assigned_world pkt tbl w i = change_player tbl w COPS pkt i := by
      simp [status_assigned_world, h, COPS, ROBBERS]
    rw [e1]
    constructor
    · exact (change_player_frames tbl w COPS pkt i).2.2.2.1
    · rw [h]
      have hc := (change_player_frames tbl w COPS pkt i).2.2.2.2
      simpa [COPS, ROBBERS] using hc
  · have e1 : status_assigned_world pkt tbl w i = change_player tbl w ROBBERS pkt i := by
      simp [status_assigned_world, h, COPS, ROBBERS]
    rw [e1]
    constructor
    · exact (change_player_frames tbl w ROBBERS pkt i).2.2.2.1
    · rw [h]
      have hc := (change_player_frames tbl w ROBBERS pkt i).2.2.2.2
      simpa [COPS, ROBBERS] using hc
  · have e1 : status_assigned_world pkt tbl w i = change_player tbl w ROBBERS pkt i := by
      simp [status_assigned_world, h, COPS, ROBBERS]
    rw [e1]
    constructor
    · exact (change_player_frames tbl w ROBBERS pkt i).2.2.2.1
    · rw [h]
      have hc := (change_player_frames tbl w ROBBERS pkt i).2.2.2.2
      simpa [COPS, ROBBERS] using hc

/-- The world built for a newly created slot (create then install the team's
or character's animation) has the allocator and liveness of the
post-creation world. -/
theorem status_new_world_frames (pkt : PKT_GAME_STATUS) (w : World) (i e : Nat) :
    (if pkt.otherPlayers_teams i = COPS
      then (load_animation cop_animation_path w e).1
      else setup_character_animation w (pkt.characters i) e).nextEntity = w.nextEntity ∧
    (if pkt.otherPlayers_teams i = COPS
      then (load_animation cop_animation_path w e).1
      else setup_character_animation w (pkt.characters i) e).alive = w.alive := by
  split
  · exact ⟨(load_animation_frames cop_animation_path w e).1,
      (load_animation_frames cop_animation_path w e).2.1⟩
  · exact ⟨(load_animation_frames (character_animation_file (pkt.characters i)) w e).1,
      (load_animation_frames (character_animation_file (pkt.characters i)) w e).2.1⟩

/-- Processing slot `j` of a status packet never writes any other slot's
player-table entry. -/
theorem status_slot_keeps_other_entry (pkt : PKT_GAME_STATUS) (st : CState) (j i : Nat)
    (h : i ≠ j) :
    (client_update_status_slot pkt st j).player_table i = st.player_table i := by
  unfold client_update_status_slot
  split
  · split
    · simp [updF, h]
    · rfl
  · split
    · simp [updF, h]
    · rfl

/-- Processing a slot that is valid and already assigned leaves the whole
player table, the entity allocator and the liveness map unchanged. -/
theorem status_slot_assigned_no_create (pkt : PKT_GAME_STATUS) (st : CState) (i : Nat)
    (hv : pkt.player_valid i = true) (ha : ¬ st.player_table i = UNASSIGNED) :
    (client_update_status_slot pkt st i).player_table = st.player_table ∧
    (client_update_status_slot pkt st i).world.nextEntity = st.world.nextEntity ∧
    (client_update_status_slot pkt st i).world.alive = st.world.alive := by
  unfold client_update_status_slot
  rw [if_pos hv, if_neg ha]
  exact ⟨rfl, (status_assigned_world_frames pkt st.player_table st.world i).1,
    (status_assigned_world_frames pkt st.player_table st.world i).2.1⟩

/-- Through the whole slot loop, a valid and already-assigned slot keeps its
player-table entry. -/
theorem status_fold_keeps_assigned (pkt : PKT_GAME_STATUS) (i : Nat)
    (hv : pkt.player_valid i = true) :
    ∀ (l : List Nat) (st : CState), ¬ st.player_table i = UNASSIGNED →
      (l.foldl (client_update_status_slot pkt) st).player_table i = st.player_table i
  | [], _, _ => rfl
  | j :: tl, st, ha => by
    by_cases hj : j = i
    · subst hj
      have h1 := (status_slot_assigned_no_create pkt st j hv ha).1
      have h2 : ¬ (client_update_status_slot pkt st j).player_table j = UNASSIGNED := by
        rw [h1]
        exact ha
      have h3 := status_fold_keeps_assigned pkt j hv tl (client_update_status_slot pkt st j) h2
      rw [List.foldl_cons, h3, h1]
    · have h1 := status_slot_keeps_other_entry pkt st j i (fun he => hj he.symm)
      have h2 : ¬ (client_update_status_slot pkt st j).player_table i = UNASSIGNED := by
        rw [h1]
        exact ha
      have h3 := status_fold_keeps_assigned pkt i hv tl (client_update_status_slot pkt st j) h2
      rw [List.foldl_cons, h3, h1]

/-- C6 (amended): a Status packet marking slot `i` valid while unassigned
creates exactly one entity (the allocator advances by one, exactly the fresh
entity becomes live) and maps slot `i` to it; a Status packet marking an
already-assigned slot `i` valid creates no entity, leaves the player-table
mapping for `i` unchanged across the whole update, and rewrites the mapped
entity's team, player-number and ready-state fields — additionally resetting
its collision class by team and re-invoking the animation loader (which the
original claim's "only team, player-number and ready-state" wording
excludes; the loader's own effect depends on the asset file, see
`load_animation`). -/
theorem c6_status_create_once_update_assigned (C : Consts) (st : CState)
    (pkt : PKT_GAME_STATUS) (i : Nat) (hi : i < C.MAX_PLAYERS)
    (hv : pkt.player_valid i = true) :
    (st.player_table i = UNASSIGNED →
      (client_update_status_slot pkt st i).player_table i = st.world.nextEntity ∧
      (client_update_status_slot pkt st i).world.nextEntity = st.world.nextEntity + 1 ∧
      (client_update_status_slot pkt st i).world.alive =
        updF st.world.alive st.world.nextEntity true) ∧
    (¬ st.player_table i = UNASSIGNED →
      (client_update_status C st pkt).player_table i = st.player_table i ∧
      (client_update_status_slot pkt st i).player_table = st.player_table ∧
      (client_update_status_slot pkt st i).world.nextEntity = st.world.nextEntity ∧
      (client_update_status_slot pkt st i).world.alive = st.world.alive ∧
      ((pkt.otherPlayers_teams i = COPS ∨ pkt.otherPlayers_teams i = ROBBERS ∨
          pkt.otherPlayers_teams i = 0) →
        (client_update_status_slot pkt st i).world.player (st.player_table i) =
          { playerNo := i, teamNo := pkt.otherPlayers_teams i
            readyStatus := pkt.readystatus i } ∧
        (client_update_status_slot pkt st i).world.collision (st.player_table i) =
          { ctype := if pkt.otherPlayers_teams i = COPS
              then COLLISION_GUARD else COLLISION_HACKER })) := by
  constructor
  · intro ha
    unfold client_update_status_slot
    rw [if_pos hv, if_pos ha]
    refine ⟨by simp [updF, create_player], ?_, ?_⟩
    · exact (status_new_world_frames pkt (create_player st.world 400 600 COLLISION_HACKER i).1 i
        (create_player st.world 400 600 COLLISION_HACKER i).2).1
    · exact (status_new_world_frames pkt (create_player st.world 400 600 COLLISION_HACKER i).1 i
        (create_player st.world 400 600 COLLISION_HACKER i).2).2
  · intro ha
    refine ⟨status_fold_keeps_assigned pkt i hv (List.range C.MAX_PLAYERS) st ha,
      (status_slot_assigned_no_create pkt st i hv ha).1,
      (status_slot_assigned_no_create pkt st i hv ha).2.1,
      (status_slot_assigned_no_create pkt st i hv ha).2.2, ?_⟩
    intro hteam
    unfold client_update_status_slot
    rw [if_pos hv, if_neg ha]
    exact status_assigned_world_player pkt st.player_table st.world i hteam

/-- Counterexample for C6 as stated: a second Status packet for an assigned
slot does keep the mapping and creates no entity, but it does NOT update only
team/player-number/ready-state — it also rewrites the entity's collision
class (ClientUpdateSystem.cpp:334-340, unconditional in `change_player`). -/
theorem c6_second_status_not_only_team_fields :
    (client_update_status fixConstsOne fixStStatusAssigned fixPktStatus).player_table 0 = 10 ∧
    fixStStatusAssigned.player_table 0 = 10 ∧
    (client_update_status fixConstsOne fixStStatusAssigned fixPktStatus).world.nextEntity =
      fixStStatusAssigned.world.nextEntity ∧
    ¬ (client_update_status fixConstsOne fixStStatusAssigned fixPktStatus).world.collision 10 =
      fixStStatusAssigned.world.collision 10 := by
  decide

/-- Witness for C6: on a concrete empty table the first Status packet creates
entity 11 for slot 0; on a concrete assigned table a second Status packet
keeps the mapping and rewrites the player record and collision class. -/
theorem c6_status_create_once_witness :
    (0 < fixConstsOne.MAX_PLAYERS ∧ fixPktStatus.player_valid 0 = true) ∧
    (client_update_status_slot fixPktStatus fixStStatusEmpty 0).player_table 0 =
      fixStStatusEmpty.world.nextEntity ∧
    (client_update_status_slot fixPktStatus fixStStatusEmpty 0).world.nextEntity =
      fixStStatusEmpty.world.nextEntity + 1 ∧
    (client_update_status fixConstsOne fixStStatusAssigned fixPktStatus).player_table 0 =
      fixStStatusAssigned.player_table 0 ∧
    (client_update_status_slot fixPktStatus fixStStatusAssigned 0).world.player 10 =
      { playerNo := 0, teamNo := ROBBERS, readyStatus := 1 } ∧
    (client_update_status_slot fixPktStatus fixStStatusAssigned 0).world.collision 10 =
      { ctype := COLLISION_HACKER } := by
  have h1 := (c6_status_create_once_update_assigned fixConstsOne fixStStatusEmpty fixPktStatus 0
    (by decide) rfl).1 rfl
  have h2 := (c6_status_create_once_update_assigned fixConstsOne fixStStatusAssigned fixPktStatus 0
    (by decide) rfl).2 (by decide)
  exact ⟨⟨by decide, rfl⟩, h1.1, h1.2.1, h2.1,
    (h2.2.2.2.2 (Or.inr (Or.inl rfl))).1, (h2.2.2.2.2 (Or.inr (Or.inl rfl))).2⟩

/-- A position-update slot step never touches the mask, position or movement
of an entity other than the one its slot maps to. -/
theorem pos_slot_keeps_entity (tbl : Nat → Nat) (ctrl : Nat) (pkt : PKT_ALL_POS_UPDATE)
    (w : World) (j : Nat) (e : Nat) (h : ¬ tbl j = e) :
    (client_update_pos_slot tbl ctrl pkt w j).mask e = w.mask e ∧
    (client_update_pos_slot tbl ctrl pkt w j).position e = w.position e ∧
    (client_update_pos_slot tbl ctrl pkt w j).movement e = w.movement e := by
  have h2 : ¬ e = tbl j := fun hh => h hh.symm
  unfold client_update_pos_slot
  split
  · exact ⟨rfl, rfl, rfl⟩
  · split
    · split
      · exact ⟨by simp [updF, h2], rfl, rfl⟩
      · exact ⟨by simp [updF, h2], by simp [updF, h2], by simp [updF, h2]⟩
    · exact ⟨rfl, rfl, rfl⟩

/-- A position-update slot step never creates or destroys entities. -/
theorem pos_slot_keeps_alive (tbl : Nat → Nat) (ctrl : Nat) (pkt : PKT_ALL_POS_UPDATE)
    (w : World) (j : Nat) :
    (client_update_pos_slot tbl ctrl pkt w j).alive = w.alive ∧
    (client_update_pos_slot tbl ctrl pkt w j).nextEntity = w.nextEntity := by
  unfold client_update_pos_slot
  split
  · exact ⟨rfl, rfl⟩
  · split
    · split
      · exact ⟨rfl, rfl⟩
      · exact ⟨rfl, rfl⟩
    · exact ⟨rfl, rfl⟩

/-- The slot step for a remote, assigned, not-on-floor slot clears exactly
the render and collision bits of the mapped entity and leaves its position
and movement untouched. -/
theorem pos_slot_hidden (tbl : Nat → Nat) (ctrl : Nat) (pkt : PKT_ALL_POS_UPDATE)
    (w : World) (i : Nat) (hc : ¬ i = ctrl) (ha : ¬ tbl i = UNASSIGNED)
    (hf : pkt.players_on_floor i = false) :
    (client_update_pos_slot tbl ctrl pkt w i).mask (tbl i) =
      maskClear (w.mask (tbl i)) (COMPONENT_RENDER_PLAYER ||| COMPONENT_COLLISION) ∧
    (client_update_pos_slot tbl ctrl pkt w i).position (tbl i) = w.position (tbl i) ∧
    (client_update_pos_slot tbl ctrl pkt w i).movement (tbl i) = w.movement (tbl i) := by
  unfold client_update_pos_slot
  rw [if_neg hc, if_pos ha, if_pos (by simp [hf])]
  exact ⟨by simp [updF], rfl, rfl⟩

/-- The whole slot loop never creates or destroys entities. -/
theorem pos_fold_keeps_alive (tbl : Nat → Nat) (ctrl : Nat) (pkt : PKT_ALL_POS_UPDATE) :
    ∀ (l : List Nat) (w : World),
      (l.foldl (client_update_pos_slot tbl ctrl pkt) w).alive = w.alive ∧
      (l.foldl (client_update_pos_slot tbl ctrl pkt) w).nextEntity = w.nextEntity
  | [], _ => ⟨rfl, rfl⟩
  | j :: tl, w => by
    have h1 := pos_slot_keeps_alive tbl ctrl pkt w j
    have h2 := pos_fold_keeps_alive tbl ctrl pkt tl (client_update_pos_slot tbl ctrl pkt w j)
    rw [List.foldl_cons]
    exact ⟨h2.1.trans h1.1, h2.2.trans h1.2⟩

/-- Running the slot loop over slots `0..n-1`: the hidden slot `i`'s entity
has exactly its render/collision bits cleared once `i < n` (and is untouched
while `n ≤ i`), with position and movement preserved throughout; other slots
cannot interfere when the table maps distinct slots to distinct entities. -/
theorem pos_fold_hidden (tbl : Nat → Nat) (ctrl : Nat) (pkt : PKT_ALL_POS_UPDATE) (i : Nat)
    (hc : ¬ i = ctrl) (ha : ¬ tbl i = UNASSIGNED) (hf : pkt.players_on_floor i = false)
    (hinj : ∀ j, ¬ j = i → ¬ tbl j = tbl i) :
    ∀ (n : Nat) (w : World),
      (n ≤ i →
        ((List.range n).foldl (client_update_pos_slot tbl ctrl pkt) w).mask (tbl i) =
          w.mask (tbl i) ∧
        ((List.range n).foldl (client_update_pos_slot tbl ctrl pkt) w).position (tbl i) =
          w.position (tbl i) ∧
        ((List.range n).foldl (client_update_pos_slot tbl ctrl pkt) w).movement (tbl i) =
          w.movement (tbl i)) ∧
      (i < n →
        ((List.range n).foldl (client_update_pos_slot tbl ctrl pkt) w).mask (tbl i) =
          maskClear (w.mask (tbl i)) (COMPONENT_RENDER_PLAYER ||| COMPONENT_COLLISION) ∧
        ((List.range n).foldl (client_update_pos_slot tbl ctrl pkt) w).position (tbl i) =
          w.position (tbl i) ∧
        ((List.range n).foldl (client_update_pos_slot tbl ctrl pkt) w).movement (tbl i) =
          w.movement (tbl i))
  | 0, _ => ⟨fun _ => ⟨rfl, rfl, rfl⟩, fun h => absurd h (by omega)⟩
  | n + 1, w => by
    have hstep : (List.range (n + 1)).foldl (client_update_pos_slot tbl ctrl pkt) w =
        client_update_pos_slot tbl ctrl pkt
          ((List.range n).foldl (client_update_pos_slot tbl ctrl pkt) w) n := by
      rw [List.range_succ, List.foldl_append, List.foldl_cons, List.foldl_nil]
    constructor
    · intro hn
      have hni : ¬ n = i := by omega
      have h1 := pos_slot_keeps_entity tbl ctrl pkt
        ((List.range n).foldl (client_update_pos_slot tbl ctrl pkt) w) n (tbl i) (hinj n hni)
      have h2 := (pos_fold_hidden tbl ctrl pkt i hc ha hf hinj n w).1 (by omega)
      rw [hstep]
      exact ⟨h1.1.trans h2.1, h1.2.1.trans h2.2.1, h1.2.2.trans h2.2.2⟩
    · intro hn
      by_cases hni : n = i
      · subst hni
        have h2 := (pos_fold_hidden tbl ctrl pkt n hc ha hf hinj n w).1 (Nat.le_refl n)
        have h1 := pos_slot_hidden tbl ctrl pkt
          ((List.range n).foldl (client_update_pos_slot tbl ctrl pkt) w) n hc ha hf
        rw [hstep]
        refine ⟨?_, h1.2.1.trans h2.2.1, h1.2.2.trans h2.2.2⟩
        rw [h1.1, h2.1]
      · have hlt : i < n := by omega
        have h1 := pos_slot_keeps_entity tbl ctrl pkt
          ((List.range n).foldl (client_update_pos_slot tbl ctrl pkt) w) n (tbl i) (hinj n hni)
        have h2 := (pos_fold_hidden tbl ctrl pkt i hc ha hf hinj n w).2 hlt
        rw [hstep]
        exact ⟨h1.1.trans h2.1, h1.2.1.trans h2.2.1, h1.2.2.trans h2.2.2⟩

/-- C8 (amended): provided the packet's floor equals the local player's
current level, a remote slot that is assigned but not flagged on-floor has
exactly its entity's render and collision bits cleared: its position and
movement records are untouched, the player table and objective table are
untouched, no entity is created or destroyed (for player tables mapping
distinct slots to distinct entities, the table invariant); and the slot
iteration at the local (controllable) slot index is the identity on the
world, whatever the packet contains.  When the packet's floor differs from
the local level the function changes nothing at all (see the
counterexample). -/
theorem c8_pos_update_hidden_slot_frame (C : Consts) (st : CState) (pkt : PKT_ALL_POS_UPDATE)
    (i : Nat) (hi : i < C.MAX_PLAYERS) (hc : ¬ i = st.controllable_playerNo)
    (ha : ¬ st.player_table i = UNASSIGNED) (hf : pkt.players_on_floor i = false)
    (hinj : ∀ j, ¬ j = i → ¬ st.player_table j = st.player_table i)
    (hfloor : pkt.floor = (st.world.position (st.player_table st.controllable_playerNo)).level) :
    (client_update_pos C st pkt).player_table = st.player_table ∧
    (client_update_pos C st pkt).objective_table = st.objective_table ∧
    (client_update_pos C st pkt).world.mask (st.player_table i) =
      maskClear (st.world.mask (st.player_table i))
        (COMPONENT_RENDER_PLAYER ||| COMPONENT_COLLISION) ∧
    (client_update_pos C st pkt).world.position (st.player_table i) =
      st.world.position (st.player_table i) ∧
    (client_update_pos C st pkt).world.movement (st.player_table i) =
      st.world.movement (st.player_table i) ∧
    (client_update_pos C st pkt).world.alive = st.world.alive ∧
    (client_update_pos C st pkt).world.nextEntity = st.world.nextEntity ∧
    (∀ w : World, client_update_pos_slot st.player_table st.controllable_playerNo pkt w
        st.controllable_playerNo = w) := by
  have hcp : client_update_pos C st pkt =
      { st with
          world := (List.range C.MAX_PLAYERS).foldl
              (client_update_pos_slot st.player_table st.controllable_playerNo pkt) st.world } := by
    unfold client_update_pos
    rw [if_pos hfloor]
  have hfold := (pos_fold_hidden st.player_table st.controllable_playerNo pkt i hc ha hf hinj
    C.MAX_PLAYERS st.world).2 hi
  have halive := pos_fold_keeps_alive st.player_table st.controllable_playerNo pkt
    (List.range C.MAX_PLAYERS) st.world
  rw [hcp]
  refine ⟨rfl, rfl, hfold.1, hfold.2.1, hfold.2.2, halive.1, halive.2, ?_⟩
  intro w
  unfold client_update_pos_slot
  rw [if_pos rfl]

/-- Counterexample for C8 as stated: a position packet for a floor other than
the local player's current one leaves an assigned, not-on-floor slot's
render and collision bits set — the claim's unconditional "clears render and
collision bits" fails for such packets. -/
theorem c8_pos_update_other_floor_not_cleared :
    fixStPos.player_table 1 = 11 ∧
    ¬ fixStPos.player_table 1 = UNASSIGNED ∧
    fixPktPosMismatch.players_on_floor 1 = false ∧
    ¬ (1 : Nat) = fixStPos.controllable_playerNo ∧
    (client_update_pos fixConstsPos fixStPos fixPktPosMismatch).world.mask 11 =
      fixWorldPos.mask 11 ∧
    ¬ ((client_update_pos fixConstsPos fixStPos fixPktPosMismatch).world.mask 11 &&&
        (COMPONENT_RENDER_PLAYER ||| COMPONENT_COLLISION)) = 0 := by
  decide

/-- Witness for C8: on the local floor, the hidden remote slot's entity has
its render/collision bits cleared and nothing else changed. -/
theorem c8_pos_update_hidden_slot_witness :
    (1 < fixConstsPos.MAX_PLAYERS ∧ ¬ fixPlayerTablePos 1 = UNASSIGNED ∧
      fixPktPosMatch.players_on_floor 1 = false) ∧
    (client_update_pos fixConstsPos fixStPos fixPktPosMatch).world.mask 11 =
      maskClear (fixWorldPos.mask 11) (COMPONENT_RENDER_PLAYER ||| COMPONENT_COLLISION) ∧
    (client_update_pos fixConstsPos fixStPos fixPktPosMatch).world.position 11 =
      fixWorldPos.position 11 ∧
    (client_update_pos fixConstsPos fixStPos fixPktPosMatch).world.alive = fixWorldPos.alive := by
  have hinj : ∀ j, ¬ j = 1 → ¬ fixStPos.player_table j = fixStPos.player_table 1 := by
    intro j hj
    show ¬ fixPlayerTablePos j = fixPlayerTablePos 1
    by_cases h0 : j = 0
    · subst h0
      decide
    · simp [fixPlayerTablePos, UNASSIGNED, h0, hj]
  have h := c8_pos_update_hidden_slot_frame fixConstsPos fixStPos fixPktPosMatch 1 (by decide)
    (by decide) (by decide) rfl hinj (by decide)
  exact ⟨⟨by decide, by decide, rfl⟩, h.2.2.1, h.2.2.2.1, h.2.2.2.2.2.1⟩

end CutThePower
